import Mathlib

/-!
Shallow embedding of the financial-report analysis application
(`src/python.py`): the data-processing core `process_financial_data`,
the ratio calculator `calculate_financial_ratios`, the narrative
requester `get_ai_analysis`, and the uploaded-file branch of the main
script.  Numeric spreadsheet values are modelled as rationals; a raw
cell is `Option ℚ` (`none` = a missing or non-numeric entry, which
`pd.to_numeric(..., errors=coerce).fillna(0)` turns into `0`).
-/

set_option autoImplicit false

/-- A raw input row after the column rename on line 39 of the source:
label (`Chỉ tiêu`), prior-year cell (`Năm trước`), current-year cell
(`Năm sau`).  A cell is `some q` when it parses as the number `q`,
`none` when it is missing or non-numeric. -/
structure RawRow where
  chiTieu : String
  namTruoc : Option ℚ
  namSau : Option ℚ
deriving DecidableEq, Repr

/-- A row of the table after numeric coercion. -/
structure NumRow where
  chiTieu : String
  namTruoc : ℚ
  namSau : ℚ
deriving DecidableEq, Repr

/-- A fully processed row: the three input columns plus the derived
columns `Tăng trưởng (%)`, `Tỷ trọng Năm trước (%)`, `Tỷ trọng Năm sau (%)`. -/
structure ProcRow where
  chiTieu : String
  namTruoc : ℚ
  namSau : ℚ
  tangTruong : ℚ
  tyTrongTruoc : ℚ
  tyTrongSau : ℚ
deriving DecidableEq, Repr

abbrev RawTable := List RawRow

abbrev ProcTable := List ProcRow

/-- Numeric coercion of one cell: `pd.to_numeric(col, errors=coerce).fillna(0)`
maps an entry that does not parse as a number (or is missing) to `0`. -/
def coerceNum (c : Option ℚ) : ℚ := c.getD 0

/-- The literal `1e-9` used by the source to dodge division by zero. -/
def tinyEps : ℚ := 1 / 1000000000

/-- `x.replace(0, 1e-9)` on the growth denominator, and the Python
`x or 1e-9` on the anchor totals: a zero value becomes `1e-9`. -/
def orEps (q : ℚ) : ℚ := if q = 0 then tinyEps else q

/-- Uppercasing used for `case=False` matching: ASCII via `Char.toUpper`
plus the Vietnamese lowercase letters occurring in the label patterns. -/
def viUpper (c : Char) : Char :=
  if c = 'ổ' then 'Ổ'
  else if c = 'ộ' then 'Ộ'
  else if c = 'à' then 'À'
  else if c = 'ả' then 'Ả'
  else if c = 'ồ' then 'Ồ'
  else if c = 'ố' then 'Ố'
  else if c = 'ắ' then 'Ắ'
  else if c = 'ạ' then 'Ạ'
  else if c = 'ợ' then 'Ợ'
  else c.toUpper

/-- Whether the first character list is a prefix of the second. -/
def prefixChars : List Char → List Char → Bool
  | [], _ => true
  | _ :: _, [] => false
  | a :: as, b :: bs => a == b && prefixChars as bs

/-- Whether the first character list occurs contiguously in the second. -/
def infixChars (pat : List Char) : List Char → Bool
  | [] => prefixChars pat []
  | b :: bs => prefixChars pat (b :: bs) || infixChars pat bs

/-- Case-insensitive substring containment: the model of
`Series.str.contains(pat, case=False, na=False)` for a literal pattern. -/
def containsCI (s pat : String) : Bool :=
  infixChars (pat.data.map viUpper) (s.data.map viUpper)

/-- Label matches the total-assets anchor pattern
`TỔNG CỘNG TÀI SẢN|TỔNG TÀI SẢN` (regex alternation = either substring). -/
def isTongTaiSan (label : String) : Bool :=
  containsCI label "TỔNG CỘNG TÀI SẢN" || containsCI label "TỔNG TÀI SẢN"

/-- Label matches the total-liabilities+equity anchor pattern
`TỔNG CỘNG NGUỒN VỐN|TỔNG NGUỒN VỐN`. -/
def isTongNguonVon (label : String) : Bool :=
  containsCI label "TỔNG CỘNG NGUỒN VỐN" || containsCI label "TỔNG NGUỒN VỐN"

/-- Label matches the short-term-assets pattern `TÀI SẢN NGẮN HẠN`. -/
def isTaiSanNganHan (label : String) : Bool :=
  containsCI label "TÀI SẢN NGẮN HẠN"

/-- Label matches the short-term-liabilities pattern `NỢ NGẮN HẠN`. -/
def isNoNganHan (label : String) : Bool :=
  containsCI label "NỢ NGẮN HẠN"

/-- Numeric coercion of the two value columns (source lines 42-44). -/
def normalizeTable (df : RawTable) : List NumRow :=
  df.map (fun r => ⟨r.chiTieu, coerceNum r.namTruoc, coerceNum r.namSau⟩)

/-- The derived columns of one row, given the two anchor denominators
`dp = tong_tai_san_truoc` and `dc = tong_tai_san_sau` (source lines 48-50
and 71-72; both composition columns divide by the total-assets anchor). -/
def mkProcRow (dp dc : ℚ) (r : NumRow) : ProcRow :=
  ⟨r.chiTieu, r.namTruoc, r.namSau,
    (r.namSau - r.namTruoc) / orEps r.namTruoc * 100,
    100 * r.namTruoc / dp,
    100 * r.namSau / dc⟩

/-- The user-facing error when an anchor row is missing (source line 59). -/
def missingAnchorMsg : String :=
  "Lỗi: Không tìm thấy dòng Tổng cộng tài sản hoặc Tổng cộng nguồn vốn trong file. Vui lòng kiểm tra lại cấu trúc file Excel."

/-- `process_financial_data` (source lines 31-74): numeric coercion,
growth column, anchor lookup, composition columns.  Returns the resulting
table (or `none`, the Python `None`) together with the list of user-facing
messages emitted. -/
def process_financial_data (df : RawTable) : Option ProcTable × List String :=
  let nr := normalizeTable df
  match nr.find? (fun r => isTongTaiSan r.chiTieu),
        nr.find? (fun r => isTongNguonVon r.chiTieu) with
  | some ta, some _nv =>
      (some (nr.map (mkProcRow (orEps ta.namTruoc) (orEps ta.namSau))), [])
  | _, _ => (none, [missingAnchorMsg])

/-- A value stored in the ratios dictionary: the string placeholder
`N/A` or a computed number. -/
inductive RatioVal where
  | na : RatioVal
  | num : ℚ → RatioVal
deriving DecidableEq, Repr

/-- The ratios dictionary: current ratio for the prior year
(`Thanh toán hiện hành Năm trước`) and for the current year
(`Thanh toán hiện hành Năm sau`). -/
structure Ratios where
  thanhToanTruoc : RatioVal
  thanhToanSau : RatioVal
deriving DecidableEq, Repr

/-- The warning shown when a short-term row is missing (source line 92). -/
def missingShortTermMsg : String :=
  "⚠️ Cảnh báo: Thiếu chỉ tiêu Tài sản ngắn hạn hoặc Nợ ngắn hạn để tính toán đầy đủ các chỉ số."

/-- `calculate_financial_ratios` (source lines 77-110): looks up the first
short-term-assets row and the first short-term-liabilities row; if either
is absent returns the `N/A` placeholders with a warning; otherwise the
per-period quotients, with a zero denominator yielding `0`.  Returns the
ratios together with the warnings emitted. -/
def calculate_financial_ratios (df : ProcTable) : Ratios × List String :=
  match df.find? (fun r => isTaiSanNganHan r.chiTieu),
        df.find? (fun r => isNoNganHan r.chiTieu) with
  | some a, some b =>
      (⟨RatioVal.num (if b.namTruoc ≠ 0 then a.namTruoc / b.namTruoc else 0),
        RatioVal.num (if b.namSau ≠ 0 then a.namSau / b.namSau else 0)⟩, [])
  | _, _ => (⟨RatioVal.na, RatioVal.na⟩, [missingShortTermMsg])

/-- Rendering of a rational by the table serializer (models the text
form pandas `to_markdown` gives a numeric cell). -/
def showQ (q : ℚ) : String := toString q

/-- One row of `data_df[[...]].to_markdown(index=False)`: the columns
`Chỉ tiêu`, `Năm trước`, `Năm sau`, `Tăng trưởng (%)`, `Tỷ trọng Năm sau (%)`. -/
def rowMarkdown (r : ProcRow) : String :=
  "| " ++ r.chiTieu ++ " | " ++ showQ r.namTruoc ++ " | " ++ showQ r.namSau
    ++ " | " ++ showQ r.tangTruong ++ " | " ++ showQ r.tyTrongSau ++ " |"

/-- The serialized table embedded in the prompt. -/
def tableMarkdown (df : ProcTable) : String :=
  "| Chỉ tiêu | Năm trước | Năm sau | Tăng trưởng (%) | Tỷ trọng Năm sau (%) |\n"
    ++ "| --- | --- | --- | --- | --- |"
    ++ String.join (df.map (fun r => "\n" ++ rowMarkdown r))

/-- Two-decimal rendering of a number, the model of Python `:.2f`
applied to a float. -/
def fmt2 (q : ℚ) : String := showQ ((Int.floor (q * 100 + 1 / 2) : ℚ) / 100)

/-- Python `:.2f` applied to a ratios-dictionary value: succeeds on a
number, raises (`none`) on the string placeholder `N/A` — format code f
is undefined for `str`. -/
def formatRatioVal : RatioVal → Option String
  | RatioVal.na => none
  | RatioVal.num q => some (fmt2 q)

/-- The exception text of the `ValueError` raised when `:.2f` is applied
to the `N/A` placeholder string. -/
def formatErrorText : String := "Unknown format code f for object of type str"

/-- The fixed prompt template (source lines 125-145) with the serialized
table and the two formatted ratio values interpolated. -/
def buildPrompt (df : ProcTable) (rp rc : String) : String :=
  "Với vai trò là một chuyên gia phân tích tài chính cấp cao, hãy dựa vào các dữ liệu sau đây để đưa ra một bản phân tích chi tiết về tình hình tài chính của doanh nghiệp.\n"
    ++ "Bản phân tích cần có cấu trúc rõ ràng, chuyên nghiệp và dễ hiểu, bao gồm các phần sau:\n"
    ++ "1. **Đánh giá tổng quan:** Nhận xét chung về sức khỏe tài chính của doanh nghiệp trong kỳ phân tích.\n"
    ++ "2. **Phân tích về quy mô và tăng trưởng:** Dựa vào sự biến động của Tổng tài sản, Doanh thu, và Lợi nhuận.\n"
    ++ "3. **Phân tích về cơ cấu tài sản và nguồn vốn:** Nhận xét về sự thay đổi trong tỷ trọng các khoản mục chính (VD: tài sản ngắn hạn, nợ phải trả).\n"
    ++ "4. **Phân tích về khả năng thanh toán:** Dựa vào các chỉ số thanh toán đã được tính toán.\n"
    ++ "5. **Kết luận và đề xuất (nếu có):** Tóm tắt những điểm mạnh, điểm yếu và đưa ra một vài gợi ý.\n"
    ++ "**DỮ LIỆU ĐẦU VÀO:**\n"
    ++ "**1. Bảng phân tích tăng trưởng và tỷ trọng:**\n"
    ++ tableMarkdown df ++ "\n"
    ++ "**2. Các chỉ số tài chính quan trọng:**\n"
    ++ "- Hệ số thanh toán hiện hành năm trước: " ++ rp ++ "\n"
    ++ "- Hệ số thanh toán hiện hành năm sau: " ++ rc ++ "\n"
    ++ "Hãy trình bày kết quả phân tích một cách mạch lạc, sử dụng các thuật ngữ tài chính chính xác."

/-- The prompt-building step of `get_ai_analysis`: `none` when the
f-string interpolation raises on a placeholder ratio value. -/
def promptFor (df : ProcTable) (ratios : Ratios) : Option String :=
  match formatRatioVal ratios.thanhToanTruoc, formatRatioVal ratios.thanhToanSau with
  | some rp, some rc => some (buildPrompt df rp rc)
  | _, _ => none

/-- Outcome of one call to the external text-generation endpoint
(`model.generate_content`), treated as an opaque oracle. -/
inductive CallOutcome where
  | success : String → CallOutcome
  | invalidArgument : String → CallOutcome
  | otherError : String → CallOutcome
deriving DecidableEq, Repr

/-- The specific invalid-credential message (source line 151). -/
def invalidKeyMsg : String :=
  "❌ Lỗi API Key: API Key của Sếp không hợp lệ hoặc đã hết hạn. Vui lòng kiểm tra lại trong phần Secrets của Streamlit."

/-- The fixed head of the generic failure message (source line 154);
the exception text is appended to it. -/
def genericAiMsgHead : String :=
  "⚠️ Đã có lỗi xảy ra khi kết nối đến Gemini AI: "

/-- The generic failure message for an exception rendered as `e`. -/
def genericAiMsg (e : String) : String := genericAiMsgHead ++ e

/-- What a run of `get_ai_analysis` produces: the returned value
(`none` = Python `None`), the user-facing messages, and how many times
the external endpoint was contacted. -/
structure AiResult where
  result : Option String
  messages : List String
  endpointCalls : ℕ
deriving DecidableEq, Repr

/-- `get_ai_analysis` (source lines 116-155): builds the prompt — which
raises into the generic handler when a ratio value is the `N/A`
placeholder, before any endpoint contact — then performs one call and
maps its outcome: success returns the text, an invalid-credential error
shows the specific key message, any other failure shows the generic
message; both failures return `none`, with no retry. -/
def get_ai_analysis (df : ProcTable) (ratios : Ratios)
    (call : String → CallOutcome) : AiResult :=
  match promptFor df ratios with
  | some prompt =>
      match call prompt with
      | CallOutcome.success t => ⟨some t, [], 1⟩
      | CallOutcome.invalidArgument _ => ⟨none, [invalidKeyMsg], 1⟩
      | CallOutcome.otherError e => ⟨none, [genericAiMsg e], 1⟩
  | none => ⟨none, [genericAiMsg formatErrorText], 0⟩

/-- The message shown when no API key is configured (source line 211). -/
def noKeyMsg : String :=
  "Sếp ơi, chưa có GEMINI_API_KEY trong phần Secrets của Streamlit. Em không thể kết nối với AI được."

/-- Observable outcome of the uploaded-file branch of the main script:
messages emitted, whether the processed table was rendered, the ratios
computed (if the ratio step ran), the AI narrative displayed (if any),
and whether the chart section was rendered. -/
structure RunOutput where
  messages : List String
  tableShown : Bool
  ratiosComputed : Option Ratios
  aiShown : Option String
  chartsShown : Bool
deriving DecidableEq, Repr

/-- The uploaded-file branch of the main script (source lines 178-269):
process the table; on `None` stop after the error message with no table,
ratio, AI or chart step; otherwise render the table, compute the ratios,
and — when a key is configured and the button pressed — run the AI call,
rendering the dashboard and charts only when it returns a narrative. -/
def runUpload (df : RawTable) (apiKey : Option String) (buttonPressed : Bool)
    (call : String → CallOutcome) : RunOutput :=
  match process_financial_data df with
  | (none, msgs) => ⟨msgs, false, none, none, false⟩
  | (some out, msgs) =>
      let rr := calculate_financial_ratios out
      match apiKey with
      | none => ⟨msgs ++ rr.2 ++ [noKeyMsg], true, some rr.1, none, false⟩
      | some _ =>
          if buttonPressed then
            let ai := get_ai_analysis out rr.1 call
            match ai.result with
            | some t => ⟨msgs ++ rr.2 ++ ai.messages, true, some rr.1, some t, true⟩
            | none => ⟨msgs ++ rr.2 ++ ai.messages, true, some rr.1, none, false⟩
          else ⟨msgs ++ rr.2, true, some rr.1, none, false⟩

/-- Sum of the prior-year composition column over the whole table. -/
def sumTyTrongTruoc (df : ProcTable) : ℚ := (df.map (fun r => r.tyTrongTruoc)).sum

/-- Sum of the current-year composition column over the whole table. -/
def sumTyTrongSau (df : ProcTable) : ℚ := (df.map (fun r => r.tyTrongSau)).sum

/-- Sum of the coerced prior-year values of the input table. -/
def sumNamTruoc (nr : List NumRow) : ℚ := (nr.map (fun r => r.namTruoc)).sum

/-- Sum of the coerced current-year values of the input table. -/
def sumNamSau (nr : List NumRow) : ℚ := (nr.map (fun r => r.namSau)).sum

/-- The processed table produced when the total-assets anchor row is `ta`. -/
def procOf (df : RawTable) (ta : NumRow) : ProcTable :=
  (normalizeTable df).map (mkProcRow (orEps ta.namTruoc) (orEps ta.namSau))

/-- Example: a table with no anchor row at all. -/
def exNoAnchors : RawTable := [⟨"Doanh thu bán hàng", some 1, some 2⟩]

/-- Example: both anchor rows present, values 50 and 100. -/
def exTwoAnchors : RawTable :=
  [⟨"TỔNG TÀI SẢN", some 50, some 50⟩, ⟨"TỔNG NGUỒN VỐN", some 100, some 100⟩]

/-- The total-assets anchor row of `exTwoAnchors` after coercion. -/
def taTwoAnchors : NumRow := ⟨"TỔNG TÀI SẢN", 50, 50⟩

/-- The processed table of `exTwoAnchors`. -/
def outTwoAnchors : ProcTable := procOf exTwoAnchors taTwoAnchors

/-- Example: per-period values sum exactly to the total-assets anchor. -/
def exBalanced : RawTable :=
  [⟨"TỔNG TÀI SẢN", some 50, some 80⟩, ⟨"TỔNG NGUỒN VỐN", some 0, some 0⟩]

/-- The total-assets anchor row of `exBalanced` after coercion. -/
def taBalanced : NumRow := ⟨"TỔNG TÀI SẢN", 50, 80⟩

/-- Example: a revenue row with prior 0 and current 5000, plus anchors. -/
def exGrowthZero : RawTable :=
  [⟨"Doanh thu bán hàng", some 0, some 5000⟩,
   ⟨"TỔNG TÀI SẢN", some 10, some 10⟩,
   ⟨"TỔNG NGUỒN VỐN", some 10, some 10⟩]

/-- The total-assets anchor row of `exGrowthZero` after coercion. -/
def taGrowthZero : NumRow := ⟨"TỔNG TÀI SẢN", 10, 10⟩

/-- The first raw row of `exGrowthZero`. -/
def rowGrowthZero : RawRow := ⟨"Doanh thu bán hàng", some 0, some 5000⟩

/-- The processed first row of `exGrowthZero`. -/
def pGrowthZero : ProcRow :=
  mkProcRow (orEps 10) (orEps 10) ⟨"Doanh thu bán hàng", 0, 5000⟩

/-- Example: a non-numeric prior-year cell in an inventory row, plus anchors. -/
def exCoerce : RawTable :=
  [⟨"Hàng tồn kho", none, some 7⟩,
   ⟨"TỔNG TÀI SẢN", some 10, some 10⟩,
   ⟨"TỔNG NGUỒN VỐN", some 10, some 10⟩]

/-- The first raw row of `exCoerce`. -/
def rowCoerce : RawRow := ⟨"Hàng tồn kho", none, some 7⟩

/-- The processed first row of `exCoerce`. -/
def pCoerce : ProcRow := mkProcRow (orEps 10) (orEps 10) ⟨"Hàng tồn kho", 0, 7⟩

/-- Example: the total-assets anchor has a non-numeric prior-year cell,
so its coerced prior value is `0`. -/
def exZeroAnchor : RawTable :=
  [⟨"TỔNG TÀI SẢN", none, some 50⟩, ⟨"TỔNG NGUỒN VỐN", some 1, some 1⟩]

/-- The total-assets anchor row of `exZeroAnchor` after coercion. -/
def taZeroAnchor : NumRow := ⟨"TỔNG TÀI SẢN", 0, 50⟩

/-- Example: a processed table with both short-term rows, the
current-year short-term-liabilities value being zero. -/
def exRatioTable : ProcTable :=
  [⟨"TÀI SẢN NGẮN HẠN", 10, 8, 0, 0, 0⟩, ⟨"NỢ NGẮN HẠN", 5, 0, 0, 0, 0⟩]

/-- Example ratios dictionary with two numeric values. -/
def exNumRatios : Ratios := ⟨RatioVal.num 2, RatioVal.num 3⟩

/-!  ## Theorems  -/

lemma orEps_ne_zero (q : ℚ) : orEps q ≠ 0 := by
  by_cases h : q = 0
  · simp only [orEps, h, if_true, tinyEps]
    norm_num
  · simp only [orEps, h, if_false]
    exact h

lemma process_eq_some (df : RawTable) (ta nv : NumRow)
    (hta : (normalizeTable df).find? (fun r => isTongTaiSan r.chiTieu) = some ta)
    (hnv : (normalizeTable df).find? (fun r => isTongNguonVon r.chiTieu) = some nv) :
    process_financial_data df = (some (procOf df ta), []) := by
  simp only [process_financial_data, hta, hnv, procOf]

lemma process_eq_none (df : RawTable)
    (h : (normalizeTable df).find? (fun r => isTongTaiSan r.chiTieu) = none ∨
         (normalizeTable df).find? (fun r => isTongNguonVon r.chiTieu) = none) :
    process_financial_data df = (none, [missingAnchorMsg]) := by
  rcases h with h | h
  · simp only [process_financial_data, h]
  · cases hta : (normalizeTable df).find? (fun r => isTongTaiSan r.chiTieu) with
    | none => simp only [process_financial_data, hta]
    | some ta => simp only [process_financial_data, hta, h]

lemma process_fst_some (df : RawTable) (out : ProcTable)
    (hout : (process_financial_data df).1 = some out) :
    ∃ ta nv,
      (normalizeTable df).find? (fun r => isTongTaiSan r.chiTieu) = some ta ∧
      (normalizeTable df).find? (fun r => isTongNguonVon r.chiTieu) = some nv ∧
      out = procOf df ta := by
  cases hta : (normalizeTable df).find? (fun r => isTongTaiSan r.chiTieu) with
  | none =>
      rw [process_eq_none df (Or.inl hta)] at hout
      simp at hout
  | some ta =>
      cases hnv : (normalizeTable df).find? (fun r => isTongNguonVon r.chiTieu) with
      | none =>
          rw [process_eq_none df (Or.inr hnv)] at hout
          simp at hout
      | some nv =>
          rw [process_eq_some df ta nv hta hnv] at hout
          simp only [Option.some.injEq] at hout
          exact ⟨ta, nv, rfl, rfl, hout.symm⟩

lemma process_pair_of_fst (df : RawTable) (out : ProcTable)
    (hout : (process_financial_data df).1 = some out) :
    process_financial_data df = (some out, []) := by
  obtain ⟨ta, nv, hta, hnv, hEq⟩ := process_fst_some df out hout
  rw [process_eq_some df ta nv hta hnv, hEq]

lemma processed_row_spec (df : RawTable) (out : ProcTable) (i : ℕ) (r : RawRow) (p : ProcRow)
    (hout : (process_financial_data df).1 = some out)
    (hr : df[i]? = some r) (hp : out[i]? = some p) :
    ∃ ta nv,
      (normalizeTable df).find? (fun r => isTongTaiSan r.chiTieu) = some ta ∧
      (normalizeTable df).find? (fun r => isTongNguonVon r.chiTieu) = some nv ∧
      p = mkProcRow (orEps ta.namTruoc) (orEps ta.namSau)
            ⟨r.chiTieu, coerceNum r.namTruoc, coerceNum r.namSau⟩ := by
  obtain ⟨ta, nv, hta, hnv, hEq⟩ := process_fst_some df out hout
  subst hEq
  refine ⟨ta, nv, hta, hnv, ?_⟩
  simp only [procOf, normalizeTable, List.map_map, List.getElem?_map, hr,
    Option.map_some', Option.some.injEq, Function.comp] at hp
  exact hp.symm

/-- C2: for every row, the growth column is
`(current − prior) / prior` (stored in percent, i.e. scaled by 100),
with a zero prior replaced by the epsilon `1e-9`; for a row whose prior
value is `0` and whose current value is `5000` the result is the exact
(finite) rational `5 * 10^14`, a large positive number, not an error. -/
theorem growth_formula_spec (df : RawTable) (out : ProcTable) (i : ℕ) (r : RawRow) (p : ProcRow)
    (hout : (process_financial_data df).1 = some out)
    (hr : df[i]? = some r) (hp : out[i]? = some p) :
    p.tangTruong = (coerceNum r.namSau - coerceNum r.namTruoc) / orEps (coerceNum r.namTruoc) * 100 ∧
    (coerceNum r.namTruoc = 0 → coerceNum r.namSau = 5000 →
      p.tangTruong = 500000000000000 ∧ 0 < p.tangTruong) := by
  obtain ⟨ta, nv, hta, hnv, hpe⟩ := processed_row_spec df out i r p hout hr hp
  subst hpe
  refine ⟨rfl, fun h0 h5 => ?_⟩
  simp only [mkProcRow, h0, h5, orEps, if_true, tinyEps]
  norm_num

/-- Witness for C2 at the concrete table `exGrowthZero`. -/
theorem growth_formula_spec_witness :
    (process_financial_data exGrowthZero).1 = some (procOf exGrowthZero taGrowthZero) ∧
    exGrowthZero[0]? = some rowGrowthZero ∧
    (procOf exGrowthZero taGrowthZero)[0]? = some pGrowthZero ∧
    (pGrowthZero.tangTruong = 500000000000000 ∧ 0 < pGrowthZero.tangTruong) :=
  ⟨rfl, rfl, rfl,
    (growth_formula_spec exGrowthZero (procOf exGrowthZero taGrowthZero) 0
      rowGrowthZero pGrowthZero rfl rfl rfl).2 rfl rfl⟩

/-- C8: every non-numeric or missing cell of the two value columns is
coerced to zero, and the growth and composition columns of every row are
computed from the coerced values (with nonzero denominators for the
composition columns). -/
theorem coercion_to_zero_spec (df : RawTable) (out : ProcTable) (i : ℕ) (r : RawRow) (p : ProcRow)
    (hout : (process_financial_data df).1 = some out)
    (hr : df[i]? = some r) (hp : out[i]? = some p) :
    p.namTruoc = coerceNum r.namTruoc ∧ p.namSau = coerceNum r.namSau ∧
    (r.namTruoc = none → p.namTruoc = 0) ∧ (r.namSau = none → p.namSau = 0) ∧
    p.tangTruong = (coerceNum r.namSau - coerceNum r.namTruoc) / orEps (coerceNum r.namTruoc) * 100 ∧
    ∃ dp dc, dp ≠ 0 ∧ dc ≠ 0 ∧
      p.tyTrongTruoc = 100 * coerceNum r.namTruoc / dp ∧
      p.tyTrongSau = 100 * coerceNum r.namSau / dc := by
  obtain ⟨ta, nv, hta, hnv, hpe⟩ := processed_row_spec df out i r p hout hr hp
  subst hpe
  refine ⟨rfl, rfl, fun h => ?_, fun h => ?_, rfl,
    orEps ta.namTruoc, orEps ta.namSau,
    orEps_ne_zero ta.namTruoc, orEps_ne_zero ta.namSau, rfl, rfl⟩
  · simp [mkProcRow, h, coerceNum]
  · simp [mkProcRow, h, coerceNum]

/-- Witness for C8 at the concrete table `exCoerce`, whose first row has
a non-numeric prior-year cell. -/
theorem coercion_to_zero_spec_witness :
    (process_financial_data exCoerce).1 = some (procOf exCoerce taGrowthZero) ∧
    exCoerce[0]? = some rowCoerce ∧
    (procOf exCoerce taGrowthZero)[0]? = some pCoerce ∧
    (rowCoerce.namTruoc = none ∧ pCoerce.namTruoc = 0) :=
  ⟨rfl, rfl, rfl, rfl,
    (coercion_to_zero_spec exCoerce (procOf exCoerce taGrowthZero) 0
      rowCoerce pCoerce rfl rfl rfl).2.2.1 rfl⟩

/-- C10: whenever both anchor rows are found, the two composition
denominators are the anchor values with zero replaced by `1e-9`; they
are never zero, and the whole composition computation succeeds and is
total over the rows. -/
theorem anchor_denominator_safe (df : RawTable) (ta nv : NumRow)
    (hta : (normalizeTable df).find? (fun r => isTongTaiSan r.chiTieu) = some ta)
    (hnv : (normalizeTable df).find? (fun r => isTongNguonVon r.chiTieu) = some nv) :
    orEps ta.namTruoc ≠ 0 ∧ orEps ta.namSau ≠ 0 ∧
    (ta.namTruoc = 0 → orEps ta.namTruoc = tinyEps) ∧
    (ta.namSau = 0 → orEps ta.namSau = tinyEps) ∧
    (process_financial_data df).1 = some (procOf df ta) := by
  refine ⟨orEps_ne_zero ta.namTruoc, orEps_ne_zero ta.namSau,
    fun h => ?_, fun h => ?_, ?_⟩
  · simp [orEps, h]
  · simp [orEps, h]
  · rw [process_eq_some df ta nv hta hnv]

/-- Witness for C10 at `exZeroAnchor`, where the anchor row's prior-year
value is coerced to zero. -/
theorem anchor_denominator_safe_witness :
    (normalizeTable exZeroAnchor).find? (fun r => isTongTaiSan r.chiTieu) = some taZeroAnchor ∧
    (orEps taZeroAnchor.namTruoc ≠ 0 ∧
     (taZeroAnchor.namTruoc = 0 → orEps taZeroAnchor.namTruoc = tinyEps) ∧
     (process_financial_data exZeroAnchor).1 = some (procOf exZeroAnchor taZeroAnchor)) :=
  ⟨by decide,
    (anchor_denominator_safe exZeroAnchor taZeroAnchor ⟨"TỔNG NGUỒN VỐN", 1, 1⟩
      (by decide) (by decide)).1,
    (anchor_denominator_safe exZeroAnchor taZeroAnchor ⟨"TỔNG NGUỒN VỐN", 1, 1⟩
      (by decide) (by decide)).2.2.1,
    (anchor_denominator_safe exZeroAnchor taZeroAnchor ⟨"TỔNG NGUỒN VỐN", 1, 1⟩
      (by decide) (by decide)).2.2.2.2⟩

lemma sum_map_share (l : List NumRow) (g : NumRow → ℚ) (d : ℚ) :
    (l.map (fun r => 100 * g r / d)).sum = 100 * (l.map g).sum / d := by
  induction l with
  | nil => simp
  | cons a t ih =>
      simp only [List.map_cons, List.sum_cons, ih]
      ring

lemma sumTyTrongTruoc_procOf (df : RawTable) (ta : NumRow) :
    sumTyTrongTruoc (procOf df ta) =
      100 * sumNamTruoc (normalizeTable df) / orEps ta.namTruoc := by
  simp only [sumTyTrongTruoc, procOf, List.map_map, sumNamTruoc]
  rw [show ((fun r : ProcRow => r.tyTrongTruoc) ∘
        mkProcRow (orEps ta.namTruoc) (orEps ta.namSau)) =
      fun r : NumRow => 100 * r.namTruoc / orEps ta.namTruoc from rfl]
  exact sum_map_share (normalizeTable df) (fun r => r.namTruoc) (orEps ta.namTruoc)

lemma sumTyTrongSau_procOf (df : RawTable) (ta : NumRow) :
    sumTyTrongSau (procOf df ta) =
      100 * sumNamSau (normalizeTable df) / orEps ta.namSau := by
  simp only [sumTyTrongSau, procOf, List.map_map, sumNamSau]
  rw [show ((fun r : ProcRow => r.tyTrongSau) ∘
        mkProcRow (orEps ta.namTruoc) (orEps ta.namSau)) =
      fun r : NumRow => 100 * r.namSau / orEps ta.namSau from rfl]
  exact sum_map_share (normalizeTable df) (fun r => r.namSau) (orEps ta.namSau)

/-- C1 as stated is false on the code: in `exTwoAnchors` both anchor
rows are present, yet both composition columns sum to 300 percent, not
100 percent — every row is divided by the total-assets anchor, so the
sum is `100 × (Σ values) / total_assets`, which need not be 100. -/
theorem composition_sum_counterexample :
    (process_financial_data exTwoAnchors).1 = some outTwoAnchors ∧
    sumTyTrongTruoc outTwoAnchors = 300 ∧
    sumTyTrongSau outTwoAnchors = 300 ∧
    (300 : ℚ) ≠ 100 := by
  refine ⟨rfl, ?_, ?_, by norm_num⟩
  · rw [show outTwoAnchors = procOf exTwoAnchors taTwoAnchors from rfl,
      sumTyTrongTruoc_procOf]
    norm_num [sumNamTruoc, normalizeTable, exTwoAnchors, coerceNum,
      taTwoAnchors, orEps, tinyEps]
  · rw [show outTwoAnchors = procOf exTwoAnchors taTwoAnchors from rfl,
      sumTyTrongSau_procOf]
    norm_num [sumNamSau, normalizeTable, exTwoAnchors, coerceNum,
      taTwoAnchors, orEps, tinyEps]

/-- C1 amended: when both anchor rows are present, each period's
composition percentages sum to `100 × (Σ that period's coerced values) /
anchor value`; in particular they sum to exactly 100 percent precisely
when the period's values sum to the (nonzero) total-assets anchor value.
The amended claim proved here: if for each period the coerced values sum
to the anchor value and that value is nonzero, both sums are 100. -/
theorem composition_sum_eq_100 (df : RawTable) (ta nv : NumRow) (out : ProcTable)
    (hta : (normalizeTable df).find? (fun r => isTongTaiSan r.chiTieu) = some ta)
    (hnv : (normalizeTable df).find? (fun r => isTongNguonVon r.chiTieu) = some nv)
    (hout : (process_financial_data df).1 = some out)
    (hps : sumNamTruoc (normalizeTable df) = ta.namTruoc) (hp0 : ta.namTruoc ≠ 0)
    (hcs : sumNamSau (normalizeTable df) = ta.namSau) (hc0 : ta.namSau ≠ 0) :
    sumTyTrongTruoc out = 100 ∧ sumTyTrongSau out = 100 := by
  have he := process_eq_some df ta nv hta hnv
  rw [he] at hout
  simp only [Option.some.injEq] at hout
  subst hout
  constructor
  · rw [sumTyTrongTruoc_procOf, hps]
    simp only [orEps, hp0, if_false]
    rw [mul_div_assoc, div_self hp0, mul_one]
  · rw [sumTyTrongSau_procOf, hcs]
    simp only [orEps, hc0, if_false]
    rw [mul_div_assoc, div_self hc0, mul_one]

/-- Witness for the amended C1 at `exBalanced`, whose per-period values
sum exactly to the anchor values 50 and 80. -/
theorem composition_sum_eq_100_witness :
    (normalizeTable exBalanced).find? (fun r => isTongTaiSan r.chiTieu) = some taBalanced ∧
    sumNamTruoc (normalizeTable exBalanced) = taBalanced.namTruoc ∧
    sumNamSau (normalizeTable exBalanced) = taBalanced.namSau ∧
    (sumTyTrongTruoc (procOf exBalanced taBalanced) = 100 ∧
     sumTyTrongSau (procOf exBalanced taBalanced) = 100) :=
  ⟨by decide,
    by simp [sumNamTruoc, normalizeTable, exBalanced, coerceNum, taBalanced],
    by simp [sumNamSau, normalizeTable, exBalanced, coerceNum, taBalanced],
    composition_sum_eq_100 exBalanced taBalanced ⟨"TỔNG NGUỒN VỐN", 0, 0⟩
      (procOf exBalanced taBalanced) (by decide) (by decide) rfl
      (by simp [sumNamTruoc, normalizeTable, exBalanced, coerceNum, taBalanced])
      (by decide)
      (by simp [sumNamSau, normalizeTable, exBalanced, coerceNum, taBalanced])
      (by decide)⟩

/-- C3: when no row matches the total-assets pattern or no row matches
the total-liabilities+equity pattern, `process_financial_data` returns
`None` after surfacing the user-facing error, and the run performs no
table rendering, no ratio computation, no AI call and no charts. -/
theorem missing_anchor_aborts (df : RawTable)
    (h : (normalizeTable df).find? (fun r => isTongTaiSan r.chiTieu) = none ∨
         (normalizeTable df).find? (fun r => isTongNguonVon r.chiTieu) = none) :
    process_financial_data df = (none, [missingAnchorMsg]) ∧
    ∀ (apiKey : Option String) (bp : Bool) (call : String → CallOutcome),
      runUpload df apiKey bp call =
        ⟨[missingAnchorMsg], false, none, none, false⟩ := by
  have he := process_eq_none df h
  exact ⟨he, fun apiKey bp call => by simp only [runUpload, he]⟩

/-- Witness for C3 at `exNoAnchors`, which has neither anchor row. -/
theorem missing_anchor_aborts_witness :
    (normalizeTable exNoAnchors).find? (fun r => isTongTaiSan r.chiTieu) = none ∧
    process_financial_data exNoAnchors = (none, [missingAnchorMsg]) ∧
    runUpload exNoAnchors (some "key") true (fun _ => CallOutcome.success "text") =
      ⟨[missingAnchorMsg], false, none, none, false⟩ :=
  ⟨by decide,
    (missing_anchor_aborts exNoAnchors (Or.inl (by decide))).1,
    (missing_anchor_aborts exNoAnchors (Or.inl (by decide))).2
      (some "key") true (fun _ => CallOutcome.success "text")⟩

lemma calculate_eq_na (out : ProcTable)
    (h : out.find? (fun r => isTaiSanNganHan r.chiTieu) = none ∨
         out.find? (fun r => isNoNganHan r.chiTieu) = none) :
    calculate_financial_ratios out =
      (⟨RatioVal.na, RatioVal.na⟩, [missingShortTermMsg]) := by
  rcases h with h | h
  · simp only [calculate_financial_ratios, h]
  · cases ha : out.find? (fun r => isTaiSanNganHan r.chiTieu) with
    | none => simp only [calculate_financial_ratios, ha]
    | some a => simp only [calculate_financial_ratios, ha, h]

/-- C4: when a processed table lacks a short-term-assets row or a
short-term-liabilities row, `calculate_financial_ratios` returns the
`N/A` placeholders for both periods together with the warning, and the
pipeline is not aborted: the run still renders the table and records
those placeholder ratios. -/
theorem short_term_missing_placeholder (out : ProcTable)
    (h : out.find? (fun r => isTaiSanNganHan r.chiTieu) = none ∨
         out.find? (fun r => isNoNganHan r.chiTieu) = none) :
    calculate_financial_ratios out =
      (⟨RatioVal.na, RatioVal.na⟩, [missingShortTermMsg]) ∧
    ∀ (df : RawTable) (apiKey : Option String) (bp : Bool) (call : String → CallOutcome),
      (process_financial_data df).1 = some out →
      (runUpload df apiKey bp call).tableShown = true ∧
      (runUpload df apiKey bp call).ratiosComputed =
        some ⟨RatioVal.na, RatioVal.na⟩ := by
  have hc := calculate_eq_na out h
  refine ⟨hc, fun df apiKey bp call hout => ?_⟩
  have hp := process_pair_of_fst df out hout
  cases apiKey with
  | none => simp [runUpload, hp, hc]
  | some k =>
      cases bp with
      | false => simp [runUpload, hp, hc]
      | true =>
          simp [runUpload, hp, hc, get_ai_analysis, promptFor, formatRatioVal]

/-- Witness for C4 at the processed table of `exTwoAnchors`, which has
no short-term rows. -/
theorem short_term_missing_placeholder_witness :
    outTwoAnchors.find? (fun r => isTaiSanNganHan r.chiTieu) = none ∧
    calculate_financial_ratios outTwoAnchors =
      (⟨RatioVal.na, RatioVal.na⟩, [missingShortTermMsg]) ∧
    ((runUpload exTwoAnchors (some "key") true (fun _ => CallOutcome.success "text")).tableShown = true ∧
     (runUpload exTwoAnchors (some "key") true (fun _ => CallOutcome.success "text")).ratiosComputed =
       some ⟨RatioVal.na, RatioVal.na⟩) :=
  ⟨by decide,
    (short_term_missing_placeholder outTwoAnchors (Or.inl (by decide))).1,
    (short_term_missing_placeholder outTwoAnchors (Or.inl (by decide))).2
      exTwoAnchors (some "key") true (fun _ => CallOutcome.success "text") rfl⟩

/-- C5: when both short-term rows are present, the per-period current
ratio is the first matching short-term-assets value divided by the first
matching short-term-liabilities value, except that a zero
short-term-liabilities value for a period makes that period's ratio 0. -/
theorem current_ratio_first_match (out : ProcTable) (a b : ProcRow)
    (ha : out.find? (fun r => isTaiSanNganHan r.chiTieu) = some a)
    (hb : out.find? (fun r => isNoNganHan r.chiTieu) = some b) :
    calculate_financial_ratios out =
      (⟨RatioVal.num (if b.namTruoc ≠ 0 then a.namTruoc / b.namTruoc else 0),
        RatioVal.num (if b.namSau ≠ 0 then a.namSau / b.namSau else 0)⟩, []) ∧
    (b.namTruoc = 0 →
      (calculate_financial_ratios out).1.thanhToanTruoc = RatioVal.num 0) ∧
    (b.namSau = 0 →
      (calculate_financial_ratios out).1.thanhToanSau = RatioVal.num 0) := by
  have hc : calculate_financial_ratios out =
      (⟨RatioVal.num (if b.namTruoc ≠ 0 then a.namTruoc / b.namTruoc else 0),
        RatioVal.num (if b.namSau ≠ 0 then a.namSau / b.namSau else 0)⟩, []) := by
    simp only [calculate_financial_ratios, ha, hb]
  refine ⟨hc, fun h0 => ?_, fun h0 => ?_⟩
  · rw [hc]
    simp [h0]
  · rw [hc]
    simp [h0]

/-- Witness for C5 at `exRatioTable`: prior ratio `10 / 5`, current
ratio `0` because the current short-term-liabilities value is zero. -/
theorem current_ratio_first_match_witness :
    exRatioTable.find? (fun r => isTaiSanNganHan r.chiTieu) =
      some ⟨"TÀI SẢN NGẮN HẠN", 10, 8, 0, 0, 0⟩ ∧
    exRatioTable.find? (fun r => isNoNganHan r.chiTieu) =
      some ⟨"NỢ NGẮN HẠN", 5, 0, 0, 0, 0⟩ ∧
    calculate_financial_ratios exRatioTable =
      (⟨RatioVal.num (if (5 : ℚ) ≠ 0 then (10 : ℚ) / 5 else 0),
        RatioVal.num (if (0 : ℚ) ≠ 0 then (8 : ℚ) / 0 else 0)⟩, []) ∧
    (calculate_financial_ratios exRatioTable).1.thanhToanSau = RatioVal.num 0 :=
  ⟨by decide, by decide,
    (current_ratio_first_match exRatioTable ⟨"TÀI SẢN NGẮN HẠN", 10, 8, 0, 0, 0⟩
      ⟨"NỢ NGẮN HẠN", 5, 0, 0, 0, 0⟩ (by decide) (by decide)).1,
    (current_ratio_first_match exRatioTable ⟨"TÀI SẢN NGẮN HẠN", 10, 8, 0, 0, 0⟩
      ⟨"NỢ NGẮN HẠN", 5, 0, 0, 0, 0⟩ (by decide) (by decide)).2.2 rfl⟩

lemma genericAiMsg_ne_invalidKey (e : String) : genericAiMsg e ≠ invalidKeyMsg := by
  intro h
  have h1 : (genericAiMsgHead ++ e).data.head? = invalidKeyMsg.data.head? := by
    rw [← h]
    rfl
  rw [String.data_append] at h1
  cases hd : genericAiMsgHead.data with
  | nil => exact absurd hd (by decide)
  | cons c t =>
      rw [hd] at h1
      have h3 : genericAiMsgHead.data.head? = some '⚠' := by decide
      rw [hd] at h3
      simp only [List.cons_append, List.head?_cons] at h1 h3
      have h4 : invalidKeyMsg.data.head? = some '❌' := by decide
      rw [h4] at h1
      rw [h3] at h1
      exact absurd h1 (by decide)

/-- C6: when the endpoint call fails with an invalid-credential error,
the specific invalid-key message is shown; for every other failure the
generic message is shown; the two messages are distinct for every
exception text; in both failure cases the function returns `none` after
exactly one endpoint call (no retry). -/
theorem invalid_key_message_distinct (df : ProcTable) (ratios : Ratios)
    (rp rc : String) (e : String)
    (hp : formatRatioVal ratios.thanhToanTruoc = some rp)
    (hc : formatRatioVal ratios.thanhToanSau = some rc) :
    get_ai_analysis df ratios (fun _ => CallOutcome.invalidArgument e) =
      ⟨none, [invalidKeyMsg], 1⟩ ∧
    get_ai_analysis df ratios (fun _ => CallOutcome.otherError e) =
      ⟨none, [genericAiMsg e], 1⟩ ∧
    genericAiMsg e ≠ invalidKeyMsg := by
  refine ⟨?_, ?_, genericAiMsg_ne_invalidKey e⟩ <;>
    simp only [get_ai_analysis, promptFor, hp, hc]

/-- Witness for C6 with numeric ratios and exception text `err`. -/
theorem invalid_key_message_distinct_witness :
    formatRatioVal exNumRatios.thanhToanTruoc = some (fmt2 2) ∧
    get_ai_analysis [] exNumRatios (fun _ => CallOutcome.invalidArgument "err") =
      ⟨none, [invalidKeyMsg], 1⟩ ∧
    get_ai_analysis [] exNumRatios (fun _ => CallOutcome.otherError "err") =
      ⟨none, [genericAiMsg "err"], 1⟩ ∧
    genericAiMsg "err" ≠ invalidKeyMsg :=
  ⟨rfl,
    (invalid_key_message_distinct [] exNumRatios (fmt2 2) (fmt2 3) "err" rfl rfl).1,
    (invalid_key_message_distinct [] exNumRatios (fmt2 2) (fmt2 3) "err" rfl rfl).2.1,
    (invalid_key_message_distinct [] exNumRatios (fmt2 2) (fmt2 3) "err" rfl rfl).2.2⟩

/-- C7: the prompt built by `get_ai_analysis` is a deterministic
function of the computed table and the ratio values alone — two calls
with equal tables and equal ratios produce identical prompt strings. -/
theorem prompt_deterministic (d1 d2 : ProcTable) (r1 r2 : Ratios)
    (hd : d1 = d2) (hr : r1 = r2) :
    promptFor d1 r1 = promptFor d2 r2 := by
  rw [hd, hr]

/-- Witness for C7 at a concrete table and concrete ratios. -/
theorem prompt_deterministic_witness :
    outTwoAnchors = outTwoAnchors ∧ exNumRatios = exNumRatios ∧
    promptFor outTwoAnchors exNumRatios = promptFor outTwoAnchors exNumRatios :=
  ⟨rfl, rfl, prompt_deterministic outTwoAnchors outTwoAnchors exNumRatios exNumRatios rfl rfl⟩

/-- C9: with the `N/A` placeholder ratios produced for a table lacking a
short-term row, `get_ai_analysis` fails while interpolating the prompt,
before any endpoint contact (0 calls), shows the generic error message,
and returns `none` — so no narrative can be produced for such a table. -/
theorem na_ratios_block_narrative (out : ProcTable)
    (h : out.find? (fun r => isTaiSanNganHan r.chiTieu) = none ∨
         out.find? (fun r => isNoNganHan r.chiTieu) = none) :
    ∀ (df : ProcTable) (call : String → CallOutcome),
      get_ai_analysis df (calculate_financial_ratios out).1 call =
        ⟨none, [genericAiMsg formatErrorText], 0⟩ := by
  intro df call
  rw [calculate_eq_na out h]
  rfl

/-- Witness for C9 at the processed table of `exTwoAnchors`. -/
theorem na_ratios_block_narrative_witness :
    outTwoAnchors.find? (fun r => isTaiSanNganHan r.chiTieu) = none ∧
    get_ai_analysis [] (calculate_financial_ratios outTwoAnchors).1
      (fun _ => CallOutcome.success "text") =
      ⟨none, [genericAiMsg formatErrorText], 0⟩ :=
  ⟨by decide,
    na_ratios_block_narrative outTwoAnchors (Or.inl (by decide)) []
      (fun _ => CallOutcome.success "text")⟩
